import Mathlib

/-!
Shallow embedding of the video player core from `src/python/src/video_player.py`
and `src/python/src/video_playlist.py`.

Modelling conventions:
- Python dictionaries preserve insertion order, so they become association
  lists here: assigning to an existing key keeps its position, a new key is
  appended at the end, and deletion removes the entry.
- The video library's records are mutated in place in Python, and both the
  playlists and the `_playing_video` field hold references (aliases) into the
  library, so a flag mutation is visible through every holder.  The embedding
  therefore stores video ids in playlists and in the playing-video field and
  dereferences them through the library, which uniquely owns the records.
- Python `str.upper()` becomes `upperStr`, the substring test `a in b`
  becomes `strIn a b`, and `" ".join(tags)` becomes
  `String.intercalate " " tags`.
- Each distinct printed success/failure branch of the source becomes a
  constructor of `Res`; the exact message wording is presentation and out of
  scope, per the spec.
-/

/-- Python-style uppercase of a string, char by char, modelling `str.upper()`. -/
def upperStr (s : String) : String := ⟨s.data.map Char.toUpper⟩

/-- Helper for `strIn`: the first list is an initial segment of the second. -/
def isPrefOf : List Char → List Char → Bool
  | [], _ => true
  | _ :: _, [] => false
  | a :: as, b :: bs => a == b && isPrefOf as bs

/-- Helper for `strIn`: the first list occurs contiguously in the second. -/
def isSubOf (n : List Char) : List Char → Bool
  | [] => n.isEmpty
  | c :: cs => isPrefOf n (c :: cs) || isSubOf n cs

/-- Python's substring test `needle in hay`. -/
def strIn (needle hay : String) : Bool := isSubOf needle.data hay.data

/-- Modelled from the spec: the `Video` record of the repository's
`video.py`/`video_library.py`, which are not part of the given sources
(spec §3): an id, a title, the ordered tag list, and the flag field, which
the player code reads and writes as a nullable string `flag_reason`
(`None` = not flagged; a string, possibly empty, = flagged with that reason). -/
structure Video where
  video_id : String
  title : String
  tags : List String
  flag_reason : Option String
  deriving Repr, DecidableEq

/-- Modelled from the spec: `VideoLibrary.get_video(id)` of the missing
`video_library.py` (spec §4.1, `getVideo(id) → Video or NotFound`); the
library dict maps each id to its record in insertion order. -/
def getVideo : List Video → String → Option Video
  | [], _ => none
  | v :: vs, i => if v.video_id = i then some v else getVideo vs i

/-- The in-place update `library._videos[id]._flag_reason = r` performed by
`flag_video` and `allow_video`: rewrite the flag of the record stored under
the id (the first such record; the spec makes ids unique). -/
def setFlagReason : List Video → String → Option String → List Video
  | [], _, _ => []
  | v :: vs, i, r =>
    if v.video_id = i then { v with flag_reason := r } :: vs
    else v :: setFlagReason vs i r

/-- Dict lookup `d.get(k)` for a string-keyed Python dict as an association
list. -/
def alGet {α : Type} : List (String × α) → String → Option α
  | [], _ => none
  | (k, x) :: rest, i => if k = i then some x else alGet rest i

/-- Dict assignment `d[k] = x`: overwrite in place if the key is present,
otherwise append. -/
def alSet {α : Type} : List (String × α) → String → α → List (String × α)
  | [], i, x => [(i, x)]
  | (k, y) :: rest, i, x =>
    if k = i then (k, x) :: rest else (k, y) :: alSet rest i x

/-- Dict deletion `del d[k]`. -/
def alDel {α : Type} : List (String × α) → String → List (String × α)
  | [], _ => []
  | (k, y) :: rest, i => if k = i then rest else (k, y) :: alDel rest i

/-- A playlist (`video_playlist.py`): the display name plus its `_videos`
dict, whose keys are catalog ids in insertion order.  The dict values are
aliases of the library's records, so only the ids are stored here and video
details are read back through the library. -/
structure Playlist where
  name : String
  videos : List String
  deriving Repr, DecidableEq

/-- The `VideoPlayer` state (`video_player.py`, `__init__`): the library's
records, the playlist registry keyed by uppercased name, the currently
playing video (stored as its id; the source stores the aliased record), and
the paused flag. -/
structure VideoPlayer where
  videos : List Video
  playlists : List (String × Playlist)
  playing_video : Option String
  is_video_paused : Bool
  deriving Repr, DecidableEq

/-- Outcome of one operation: one constructor per distinct success/failure
branch of the source, following the spec's error taxonomy (§7). -/
inductive Res where
  | ok
  | videoNotFound
  | videoFlagged (reason : String)
  | playlistNotFound
  | playlistAlreadyExists
  | alreadyInPlaylist
  | notInPlaylist
  | alreadyFlagged
  | notFlagged
  | nothingPlaying
  | alreadyPaused
  | notPaused
  | noVideosAvailable
  deriving Repr, DecidableEq

/-- `play_video` (video_player.py lines 35-54).  The source clears the paused
flag before any check; its two success branches differ only in whether a
"Stopping video" message is printed first, and both end with the requested
video playing. -/
def play_video (s : VideoPlayer) (video_id : String) : VideoPlayer × Res :=
  let s := { s with is_video_paused := false }
  match getVideo s.videos video_id with
  | none => (s, Res.videoNotFound)
  | some video =>
    match video.flag_reason with
    | some r => (s, Res.videoFlagged r)
    | none => ({ s with playing_video := some video.video_id }, Res.ok)

/-- `stop_video` (lines 56-63).  The paused flag is not reset. -/
def stop_video (s : VideoPlayer) : VideoPlayer × Res :=
  match s.playing_video with
  | none => (s, Res.nothingPlaying)
  | some _ => ({ s with playing_video := none }, Res.ok)

/-- `play_random_video` (lines 65-73); `random.choice` over the unflagged
videos is modelled by an arbitrary index `k`, reduced modulo the length. -/
def play_random_video (s : VideoPlayer) (k : Nat) : VideoPlayer × Res :=
  match s.videos.filter (fun v => v.flag_reason == none) with
  | [] => (s, Res.noVideosAvailable)
  | v :: vs => play_video s (((v :: vs).getD (k % (v :: vs).length) v).video_id)

/-- `pause_video` (lines 75-85). -/
def pause_video (s : VideoPlayer) : VideoPlayer × Res :=
  match s.playing_video with
  | none => (s, Res.nothingPlaying)
  | some _ =>
    if s.is_video_paused then (s, Res.alreadyPaused)
    else ({ s with is_video_paused := true }, Res.ok)

/-- `continue_video` (lines 87-97). -/
def continue_video (s : VideoPlayer) : VideoPlayer × Res :=
  match s.playing_video with
  | none => (s, Res.nothingPlaying)
  | some _ =>
    if s.is_video_paused then ({ s with is_video_paused := false }, Res.ok)
    else (s, Res.notPaused)

/-- `create_playlist` (lines 111-124): the registry key is the uppercased
name, the stored playlist keeps the name as supplied. -/
def create_playlist (s : VideoPlayer) (playlist_name : String) : VideoPlayer × Res :=
  let playlist_id := upperStr playlist_name
  match alGet s.playlists playlist_id with
  | some _ => (s, Res.playlistAlreadyExists)
  | none =>
    ({ s with playlists := alSet s.playlists playlist_id ⟨playlist_name, []⟩ }, Res.ok)

/-- `add_to_playlist` (lines 126-147): checks, in order, playlist existence,
video existence, the video's flag, membership; then appends the id. -/
def add_to_playlist (s : VideoPlayer) (playlist_name video_id : String) : VideoPlayer × Res :=
  let video := getVideo s.videos video_id
  let playlist_id := upperStr playlist_name
  match alGet s.playlists playlist_id with
  | none => (s, Res.playlistNotFound)
  | some playlist =>
    match video with
    | none => (s, Res.videoNotFound)
    | some v =>
      match v.flag_reason with
      | some r => (s, Res.videoFlagged r)
      | none =>
        if v.video_id ∈ playlist.videos then (s, Res.alreadyInPlaylist)
        else
          ({ s with playlists := (alSet s.playlists playlist_id
              ⟨playlist.name, playlist.videos ++ [video_id]⟩) }, Res.ok)

/-- `remove_from_playlist` (lines 186-205): checks playlist existence, then
membership of the id in the library dict, then membership in the playlist;
no flag check.  Deletion from the playlist dict removes the (unique) entry. -/
def remove_from_playlist (s : VideoPlayer) (playlist_name video_id : String) : VideoPlayer × Res :=
  let playlist_id := upperStr playlist_name
  match alGet s.playlists playlist_id with
  | none => (s, Res.playlistNotFound)
  | some playlist =>
    if (getVideo s.videos video_id).isNone then (s, Res.videoNotFound)
    else if video_id ∈ playlist.videos then
      ({ s with playlists := (alSet s.playlists playlist_id
          ⟨playlist.name, playlist.videos.erase video_id⟩) }, Res.ok)
    else (s, Res.notInPlaylist)

/-- `clear_playlist` (lines 207-219). -/
def clear_playlist (s : VideoPlayer) (playlist_name : String) : VideoPlayer × Res :=
  let playlist_id := upperStr playlist_name
  match alGet s.playlists playlist_id with
  | none => (s, Res.playlistNotFound)
  | some playlist =>
    ({ s with playlists := alSet s.playlists playlist_id ⟨playlist.name, []⟩ }, Res.ok)

/-- `delete_playlist` (lines 221-233). -/
def delete_playlist (s : VideoPlayer) (playlist_name : String) : VideoPlayer × Res :=
  let playlist_id := upperStr playlist_name
  match alGet s.playlists playlist_id with
  | none => (s, Res.playlistNotFound)
  | some _ => ({ s with playlists := alDel s.playlists playlist_id }, Res.ok)

/-- The matching loop of `search_videos` (lines 257-272): keep the videos
whose uppercased title contains the uppercased term and that are unflagged.
The interactive offer to play one result belongs to the excluded CLI layer
(spec §9, open question), so the operation is the match list itself. -/
def search_videos (s : VideoPlayer) (search_term : String) : List Video :=
  s.videos.filter
    (fun video =>
      strIn (upperStr search_term) (upperStr video.title) && video.flag_reason == none)

/-- The matching loop of `search_videos_tag` (lines 274-290): the term is
matched against the space-joined tag string `" ".join(video.tags)`. -/
def search_videos_tag (s : VideoPlayer) (video_tag : String) : List Video :=
  s.videos.filter
    (fun video =>
      strIn (upperStr video_tag) (upperStr (String.intercalate " " video.tags)) &&
        video.flag_reason == none)

/-- `flag_video` (lines 292-308); the source's default reason is the empty
string, so the reason parameter is always a plain string here.  The source
compares `self._playing_video == video` on aliased library records, which
coincides with id equality. -/
def flag_video (s : VideoPlayer) (video_id : String) (flag_reason : String) : VideoPlayer × Res :=
  match getVideo s.videos video_id with
  | none => (s, Res.videoNotFound)
  | some video =>
    match video.flag_reason with
    | some _ => (s, Res.alreadyFlagged)
    | none =>
      let s1 := if s.playing_video = some video.video_id then (stop_video s).1 else s
      ({ s1 with videos := setFlagReason s1.videos video_id (some flag_reason) }, Res.ok)

/-- `allow_video` (lines 310-323). -/
def allow_video (s : VideoPlayer) (video_id : String) : VideoPlayer × Res :=
  match getVideo s.videos video_id with
  | none => (s, Res.videoNotFound)
  | some video =>
    match video.flag_reason with
    | none => (s, Res.notFlagged)
    | some _ =>
      ({ s with videos := setFlagReason s.videos video_id none }, Res.ok)

/-- One state-changing user command of spec §4.3.  The searches are pure
queries in the core, so they do not appear; `playRandom` carries the random
source's choice as an index. -/
inductive Op where
  | play (video_id : String)
  | stop
  | playRandom (k : Nat)
  | pause
  | resume
  | createPlaylist (playlist_name : String)
  | addToPlaylist (playlist_name video_id : String)
  | removeFromPlaylist (playlist_name video_id : String)
  | clearPlaylist (playlist_name : String)
  | deletePlaylist (playlist_name : String)
  | flag (video_id : String) (flag_reason : String)
  | allow (video_id : String)

/-- Dispatch one command to the corresponding method, keeping the new state. -/
def stepOp (s : VideoPlayer) : Op → VideoPlayer
  | Op.play i => (play_video s i).1
  | Op.stop => (stop_video s).1
  | Op.playRandom k => (play_random_video s k).1
  | Op.pause => (pause_video s).1
  | Op.resume => (continue_video s).1
  | Op.createPlaylist n => (create_playlist s n).1
  | Op.addToPlaylist n i => (add_to_playlist s n i).1
  | Op.removeFromPlaylist n i => (remove_from_playlist s n i).1
  | Op.clearPlaylist n => (clear_playlist s n).1
  | Op.deletePlaylist n => (delete_playlist s n).1
  | Op.flag i r => (flag_video s i r).1
  | Op.allow i => (allow_video s i).1

/-- `VideoPlayer.__init__`: the library is loaded with the given records, no
playlists exist, nothing is playing, not paused. -/
def initState (lib : List Video) : VideoPlayer := ⟨lib, [], none, false⟩

/-- Run a whole command sequence from a state. -/
def runOps (s : VideoPlayer) (ops : List Op) : VideoPlayer := ops.foldl stepOp s

/-- The cross-cutting invariant of spec §4.3: whatever is currently playing
exists in the catalog and is not flagged. -/
def PlayingUnflagged (s : VideoPlayer) : Prop :=
  ∀ i, s.playing_video = some i →
    ∃ v, getVideo s.videos i = some v ∧ v.flag_reason = none

theorem getVideo_eq_id {l : List Video} {i : String} {v : Video}
    (h : getVideo l i = some v) : v.video_id = i := by
  induction l with
  | nil => simp [getVideo] at h
  | cons a as ih =>
    by_cases hai : a.video_id = i
    · simp [getVideo, hai] at h
      subst h
      exact hai
    · simp [getVideo, hai] at h
      exact ih h

theorem getVideo_setFlagReason_self {l : List Video} {i : String} {v : Video}
    (h : getVideo l i = some v) (r : Option String) :
    getVideo (setFlagReason l i r) i = some { v with flag_reason := r } := by
  induction l with
  | nil => simp [getVideo] at h
  | cons a as ih =>
    by_cases hai : a.video_id = i
    · simp [getVideo, hai] at h
      subst h
      simp [setFlagReason, getVideo, hai]
    · simp [getVideo, hai] at h
      simp [setFlagReason, getVideo, hai]
      exact ih h

theorem getVideo_setFlagReason_ne {l : List Video} {i j : String} (r : Option String)
    (h : j ≠ i) : getVideo (setFlagReason l i r) j = getVideo l j := by
  induction l with
  | nil => simp [setFlagReason, getVideo]
  | cons a as ih =>
    by_cases hai : a.video_id = i
    · have hij : i ≠ j := fun hh => h hh.symm
      simp [setFlagReason, getVideo, hai, hij]
    · simp [setFlagReason, hai, getVideo, ih]

theorem alGet_alSet_self {α : Type} (l : List (String × α)) (k : String) (x : α) :
    alGet (alSet l k x) k = some x := by
  induction l with
  | nil => simp [alSet, alGet]
  | cons a as ih =>
    by_cases hk : a.1 = k
    · simp [alSet, alGet, hk]
    · simp [alSet, alGet, hk, ih]

/-- C4: playing an existing unflagged video always succeeds, stops whatever
was playing, and leaves the player playing that video with the paused flag
cleared, whatever the prior playback and paused state; nothing else changes. -/
theorem c4_play_success (s : VideoPlayer) (i : String) (v : Video)
    (hv : getVideo s.videos i = some v) (hf : v.flag_reason = none) :
    play_video s i =
      ({ s with is_video_paused := false, playing_video := some i }, Res.ok) := by
  have hid : v.video_id = i := getVideo_eq_id hv
  simp [play_video, hv, hf, hid]

theorem c4_witness :
    play_video (initState [⟨"v", "Amy", ["fun"], none⟩]) "v" =
      ({ (initState [⟨"v", "Amy", ["fun"], none⟩]) with playing_video := some "v" }, Res.ok) :=
  c4_play_success (initState [⟨"v", "Amy", ["fun"], none⟩]) "v"
    ⟨"v", "Amy", ["fun"], none⟩ (by decide) rfl

/-- C7: flagging an existing unflagged video twice with the same reason makes
the second call fail with AlreadyFlagged and return the state after the first
call completely unchanged, stored flag reason included. -/
theorem c7_flag_twice (s : VideoPlayer) (i r : String) (v : Video)
    (hv : getVideo s.videos i = some v) (hf : v.flag_reason = none) :
    flag_video (flag_video s i r).1 i r = ((flag_video s i r).1, Res.alreadyFlagged) := by
  have hgv : getVideo (flag_video s i r).1.videos i = some { v with flag_reason := some r } := by
    by_cases hp : s.playing_video = some v.video_id
    · simp [flag_video, hv, hf, hp, stop_video]
      exact getVideo_setFlagReason_self hv (some r)
    · simp [flag_video, hv, hf, hp]
      exact getVideo_setFlagReason_self hv (some r)
  rw [flag_video.eq_def, hgv]

theorem c7_witness :
    flag_video (flag_video (initState [⟨"v", "Amy", ["fun"], none⟩]) "v" "spam").1 "v" "spam" =
      ((flag_video (initState [⟨"v", "Amy", ["fun"], none⟩]) "v" "spam").1,
        Res.alreadyFlagged) :=
  c7_flag_twice (initState [⟨"v", "Amy", ["fun"], none⟩]) "v" "spam"
    ⟨"v", "Amy", ["fun"], none⟩ (by decide) rfl

/-- C10: removal from a playlist has no flag precondition: when the playlist
exists, the video exists in the catalog and its id is in the playlist,
remove_from_playlist succeeds even though the video is currently flagged. -/
theorem c10_remove_flagged (s : VideoPlayer) (n i r : String) (pl : Playlist) (v : Video)
    (hp : alGet s.playlists (upperStr n) = some pl)
    (hv : getVideo s.videos i = some v) (hf : v.flag_reason = some r)
    (hm : i ∈ pl.videos) :
    remove_from_playlist s n i =
      ({ s with playlists := (alSet s.playlists (upperStr n)
          ⟨pl.name, pl.videos.erase i⟩) }, Res.ok) := by
  simp [remove_from_playlist, hp, hv, hm]

theorem c10_witness :
    remove_from_playlist
      ⟨[⟨"v", "Amy", ["fun"], some "spam"⟩], [("P", ⟨"p", ["v"]⟩)], none, false⟩ "p" "v" =
      (⟨[⟨"v", "Amy", ["fun"], some "spam"⟩], [("P", ⟨"p", []⟩)], none, false⟩, Res.ok) := by
  have h := c10_remove_flagged
    ⟨[⟨"v", "Amy", ["fun"], some "spam"⟩], [("P", ⟨"p", ["v"]⟩)], none, false⟩ "p" "v" "spam"
    ⟨"p", ["v"]⟩ ⟨"v", "Amy", ["fun"], some "spam"⟩ (by decide) (by decide) rfl (by decide)
  rw [h]
  decide

/-- C1 fails as stated: `play_video` clears the paused flag before the
existence check, so playing a missing id mutates the paused flag; and
`add_to_playlist` checks playlist existence before video existence, so with a
missing playlist the missing video id is reported as PlaylistNotFound.
Concretely: with one video "v" playing and paused, `play "missing"` answers
VideoNotFound but un-pauses the player; `addToPlaylist "P" "missing"` with no
playlist "P" answers PlaylistNotFound, not VideoNotFound. -/
theorem c1_counterexample :
    (pause_video (play_video (initState [⟨"v", "T", [], none⟩]) "v").1).1.is_video_paused =
        true ∧
      (play_video (pause_video (play_video (initState [⟨"v", "T", [], none⟩]) "v").1).1
          "missing").2 = Res.videoNotFound ∧
      (play_video (pause_video (play_video (initState [⟨"v", "T", [], none⟩]) "v").1).1
          "missing").1.is_video_paused = false ∧
      (add_to_playlist (initState [⟨"v", "T", [], none⟩]) "P" "missing").2 =
        Res.playlistNotFound := by
  decide

/-- C1 amended: for a video id absent from the catalog, play, flag and allow
fail with VideoNotFound and leave the state unchanged, except that play
resets the paused flag to false; addToPlaylist and removeFromPlaylist fail
with VideoNotFound and change nothing provided the named playlist exists
(with no such playlist they fail with PlaylistNotFound instead). -/
theorem c1_amended (s : VideoPlayer) (i nm r : String)
    (hv : getVideo s.videos i = none) :
    play_video s i = ({ s with is_video_paused := false }, Res.videoNotFound) ∧
      flag_video s i r = (s, Res.videoNotFound) ∧
      allow_video s i = (s, Res.videoNotFound) ∧
      (∀ pl, alGet s.playlists (upperStr nm) = some pl →
        add_to_playlist s nm i = (s, Res.videoNotFound) ∧
          remove_from_playlist s nm i = (s, Res.videoNotFound)) := by
  refine ⟨?_, ?_, ?_, ?_⟩
  · simp [play_video, hv]
  · simp [flag_video, hv]
  · simp [allow_video, hv]
  · intro pl hpl
    constructor
    · simp [add_to_playlist, hpl, hv]
    · simp [remove_from_playlist, hpl, hv]

theorem c1_amended_witness :
    play_video ⟨[⟨"v", "T", [], none⟩], [("P", ⟨"P", []⟩)], some "v", true⟩ "missing" =
        (⟨[⟨"v", "T", [], none⟩], [("P", ⟨"P", []⟩)], some "v", false⟩, Res.videoNotFound) ∧
      add_to_playlist ⟨[⟨"v", "T", [], none⟩], [("P", ⟨"P", []⟩)], some "v", true⟩ "P"
          "missing" =
        (⟨[⟨"v", "T", [], none⟩], [("P", ⟨"P", []⟩)], some "v", true⟩, Res.videoNotFound) := by
  have h := c1_amended ⟨[⟨"v", "T", [], none⟩], [("P", ⟨"P", []⟩)], some "v", true⟩
    "missing" "P" "why" (by decide)
  exact ⟨h.1, (h.2.2.2 ⟨"P", []⟩ (by decide)).1⟩

/-- C8: search returns exactly the unflagged catalog videos whose uppercased
title contains the uppercased term, and when nothing matches the result is
the empty list (an outcome, not an error). -/
theorem c8_search_exact (s : VideoPlayer) (t : String) :
    (∀ v, v ∈ search_videos s t ↔
        v ∈ s.videos ∧ strIn (upperStr t) (upperStr v.title) = true ∧
          v.flag_reason = none) ∧
      ((∀ v ∈ s.videos,
          ¬(strIn (upperStr t) (upperStr v.title) = true ∧ v.flag_reason = none)) →
        search_videos s t = []) := by
  constructor
  · intro v
    simp [search_videos, List.mem_filter, and_assoc]
  · intro h
    simp only [search_videos, List.filter_eq_nil_iff]
    intro v hvmem
    have := h v hvmem
    simp only [Bool.and_eq_true, beq_iff_eq, not_and] at this ⊢
    intro hs hf
    exact this hs hf

theorem c8_witness :
    search_videos (initState [⟨"v", "Amy", [], some "x"⟩, ⟨"w", "Bob", [], none⟩]) "amy" =
      [] :=
  (c8_search_exact (initState [⟨"v", "Amy", [], some "x"⟩, ⟨"w", "Bob", [], none⟩])
    "amy").2 (by decide)

/-- C3 fails as stated: tag search matches the term against the space-joined
tag string, so a term spanning the gap between two adjacent tags matches a
video none of whose individual tags contains the term.  Concretely: the video
with tags ["fun", "sad"] is returned for the term "n s" (it occurs in
"fun sad"), yet neither "fun" nor "sad" contains "n s". -/
theorem c3_counterexample :
    (⟨"v1", "T", ["fun", "sad"], none⟩ : Video) ∈
        search_videos_tag (initState [⟨"v1", "T", ["fun", "sad"], none⟩]) "n s" ∧
      strIn (upperStr "n s") (upperStr "fun") = false ∧
      strIn (upperStr "n s") (upperStr "sad") = false := by
  decide

/-- C3 amended: tag search returns exactly the unflagged videos whose
space-joined tag string, uppercased, contains the uppercased term; matching
is against that joined string, not against each tag individually. -/
theorem c3_amended (s : VideoPlayer) (t : String) (v : Video) :
    v ∈ search_videos_tag s t ↔
      v ∈ s.videos ∧
        strIn (upperStr t) (upperStr (String.intercalate " " v.tags)) = true ∧
        v.flag_reason = none := by
  simp [search_videos_tag, List.mem_filter, and_assoc]

theorem c3_amended_witness :
    (⟨"v1", "T", ["fun", "sad"], none⟩ : Video) ∈
      search_videos_tag (initState [⟨"v1", "T", ["fun", "sad"], none⟩]) "fun" :=
  (c3_amended (initState [⟨"v1", "T", ["fun", "sad"], none⟩]) "fun"
    ⟨"v1", "T", ["fun", "sad"], none⟩).mpr (by decide)

/-- C9: flagging with the empty-string reason is still flagged, not
NotFlagged: afterwards play on that id fails VideoFlagged with the empty
reason, a second flag fails AlreadyFlagged, and the (now flagged) record is
excluded from every search and tag search. -/
theorem c9_empty_reason_flagged (s : VideoPlayer) (i r t : String) (v : Video)
    (hv : getVideo s.videos i = some v) (hf : v.flag_reason = none) :
    (play_video (flag_video s i "").1 i).2 = Res.videoFlagged "" ∧
      flag_video (flag_video s i "").1 i r = ((flag_video s i "").1, Res.alreadyFlagged) ∧
      { v with flag_reason := some "" } ∉ search_videos (flag_video s i "").1 t ∧
      { v with flag_reason := some "" } ∉ search_videos_tag (flag_video s i "").1 t := by
  have hgv : getVideo (flag_video s i "").1.videos i = some { v with flag_reason := some "" } := by
    by_cases hp : s.playing_video = some v.video_id
    · simp [flag_video, hv, hf, hp, stop_video]
      exact getVideo_setFlagReason_self hv (some "")
    · simp [flag_video, hv, hf, hp]
      exact getVideo_setFlagReason_self hv (some "")
  refine ⟨?_, ?_, ?_, ?_⟩
  · simp [play_video, hgv]
  · rw [flag_video.eq_def, hgv]
  · simp [search_videos, List.mem_filter]
  · simp [search_videos_tag, List.mem_filter]

theorem c9_witness :
    (play_video (flag_video (initState [⟨"v", "Amy", ["fun"], none⟩]) "v" "").1 "v").2 =
        Res.videoFlagged "" ∧
      (flag_video (flag_video (initState [⟨"v", "Amy", ["fun"], none⟩]) "v" "").1 "v"
          "later").2 = Res.alreadyFlagged := by
  have h := c9_empty_reason_flagged (initState [⟨"v", "Amy", ["fun"], none⟩]) "v" "later"
    "amy" ⟨"v", "Amy", ["fun"], none⟩ (by decide) rfl
  exact ⟨h.1, by rw [h.2.1]⟩

theorem erase_append_singleton {l : List String} {i : String} (h : i ∉ l) :
    (l ++ [i]).erase i = l := by
  induction l with
  | nil => simp
  | cons a as ih =>
    simp only [List.mem_cons, not_or] at h
    have hne : (a == i) = false := by
      simp only [beq_eq_false_iff_ne]
      exact fun hh => h.1 hh.symm
    rw [List.cons_append, List.erase_cons, hne]
    simp [ih h.2]

/-- C5: adding a not-yet-present unflagged catalog video to an existing
playlist and then removing it restores the playlist (contents and order) to
exactly its pre-add value; both steps succeed. -/
theorem c5_add_remove_round_trip (s : VideoPlayer) (n i : String) (pl : Playlist) (v : Video)
    (hp : alGet s.playlists (upperStr n) = some pl)
    (hv : getVideo s.videos i = some v) (hf : v.flag_reason = none)
    (hm : i ∉ pl.videos) :
    (add_to_playlist s n i).2 = Res.ok ∧
      (remove_from_playlist (add_to_playlist s n i).1 n i).2 = Res.ok ∧
      alGet (remove_from_playlist (add_to_playlist s n i).1 n i).1.playlists (upperStr n) =
        some pl := by
  have hid : v.video_id = i := getVideo_eq_id hv
  have hm' : v.video_id ∉ pl.videos := by rw [hid]; exact hm
  have hadd : add_to_playlist s n i =
      ({ s with playlists :=
        (alSet s.playlists (upperStr n) ⟨pl.name, pl.videos ++ [i]⟩) }, Res.ok) := by
    simp [add_to_playlist, hp, hv, hf, hm']
  have hget2 : alGet (add_to_playlist s n i).1.playlists (upperStr n) =
      some ⟨pl.name, pl.videos ++ [i]⟩ := by
    rw [hadd]
    exact alGet_alSet_self _ _ _
  have hvid2 : getVideo (add_to_playlist s n i).1.videos i = some v := by
    rw [hadd]
    exact hv
  have hmem2 : i ∈ pl.videos ++ [i] := by simp
  have herase : (pl.videos ++ [i]).erase i = pl.videos := erase_append_singleton hm
  have hrem : remove_from_playlist (add_to_playlist s n i).1 n i =
      ({ (add_to_playlist s n i).1 with playlists :=
        (alSet (add_to_playlist s n i).1.playlists (upperStr n) ⟨pl.name, pl.videos⟩) },
        Res.ok) := by
    simp [remove_from_playlist, hget2, hvid2, hmem2, herase]
  refine ⟨by rw [hadd], by rw [hrem], ?_⟩
  rw [hrem]
  exact alGet_alSet_self _ _ _

theorem c5_witness :
    (add_to_playlist ⟨[⟨"v", "T", [], none⟩], [("P", ⟨"p", []⟩)], none, false⟩ "p" "v").2 =
        Res.ok ∧
      (remove_from_playlist
        (add_to_playlist ⟨[⟨"v", "T", [], none⟩], [("P", ⟨"p", []⟩)], none, false⟩ "p"
          "v").1 "p" "v").2 = Res.ok ∧
      alGet (remove_from_playlist
        (add_to_playlist ⟨[⟨"v", "T", [], none⟩], [("P", ⟨"p", []⟩)], none, false⟩ "p"
          "v").1 "p" "v").1.playlists (upperStr "p") = some ⟨"p", []⟩ :=
  c5_add_remove_round_trip ⟨[⟨"v", "T", [], none⟩], [("P", ⟨"p", []⟩)], none, false⟩ "p" "v"
    ⟨"p", []⟩ ⟨"v", "T", [], none⟩ (by decide) (by decide) rfl (by decide)

/-- C6: playlist identity is the uppercased name.  After createPlaylist(n),
creating any name m with the same uppercasing fails with
PlaylistAlreadyExists and leaves the state as it was, while
addToPlaylist(m, id) succeeds against that same playlist: the entry stored
under the key uppercase(n) keeps display name n and now lists the video. -/
theorem c6_playlist_case_insensitive (s : VideoPlayer) (n m i : String) (v : Video)
    (hup : upperStr m = upperStr n)
    (hn : alGet s.playlists (upperStr n) = none)
    (hv : getVideo s.videos i = some v) (hf : v.flag_reason = none) :
    create_playlist (create_playlist s n).1 m =
        ((create_playlist s n).1, Res.playlistAlreadyExists) ∧
      (add_to_playlist (create_playlist s n).1 m i).2 = Res.ok ∧
      alGet (add_to_playlist (create_playlist s n).1 m i).1.playlists (upperStr n) =
        some ⟨n, [i]⟩ := by
  have hcr : create_playlist s n =
      ({ s with playlists := alSet s.playlists (upperStr n) ⟨n, []⟩ }, Res.ok) := by
    simp [create_playlist, hn]
  have hg1 : alGet (create_playlist s n).1.playlists (upperStr n) = some ⟨n, []⟩ := by
    rw [hcr]
    exact alGet_alSet_self _ _ _
  have hv1 : getVideo (create_playlist s n).1.videos i = some v := by
    rw [hcr]
    exact hv
  have key : ∀ s1 : VideoPlayer,
      alGet s1.playlists (upperStr n) = some ⟨n, []⟩ →
      getVideo s1.videos i = some v →
        create_playlist s1 m = (s1, Res.playlistAlreadyExists) ∧
          (add_to_playlist s1 m i).2 = Res.ok ∧
          alGet (add_to_playlist s1 m i).1.playlists (upperStr n) = some ⟨n, [i]⟩ := by
    intro s1 hg1s hv1s
    have hadd : add_to_playlist s1 m i =
        ({ s1 with playlists := (alSet s1.playlists (upperStr n) ⟨n, [i]⟩) }, Res.ok) := by
      simp [add_to_playlist, hup, hg1s, hv1s, hf]
    refine ⟨?_, by rw [hadd], ?_⟩
    · simp [create_playlist, hup, hg1s]
    · rw [hadd]
      exact alGet_alSet_self _ _ _
  exact key (create_playlist s n).1 hg1 hv1

theorem c6_witness :
    create_playlist (create_playlist (initState [⟨"v", "T", [], none⟩]) "Movies").1
        "MOVIES" =
      ((create_playlist (initState [⟨"v", "T", [], none⟩]) "Movies").1,
        Res.playlistAlreadyExists) ∧
      (add_to_playlist (create_playlist (initState [⟨"v", "T", [], none⟩]) "Movies").1
        "MOVIES" "v").2 = Res.ok ∧
      alGet (add_to_playlist (create_playlist (initState [⟨"v", "T", [], none⟩])
        "Movies").1 "MOVIES" "v").1.playlists (upperStr "Movies") =
        some ⟨"Movies", ["v"]⟩ :=
  c6_playlist_case_insensitive (initState [⟨"v", "T", [], none⟩]) "Movies" "MOVIES" "v"
    ⟨"v", "T", [], none⟩ (by decide) (by decide) (by decide) rfl

theorem playingUnflagged_of_eq {s s' : VideoPlayer}
    (hvids : s'.videos = s.videos) (hplay : s'.playing_video = s.playing_video)
    (h : PlayingUnflagged s) : PlayingUnflagged s' := by
  intro j hj
  rw [hvids]
  exact h j (hplay ▸ hj)

theorem playingUnflagged_of_none {s' : VideoPlayer}
    (hplay : s'.playing_video = none) : PlayingUnflagged s' := by
  intro j hj
  rw [hplay] at hj
  exact absurd hj (by simp)

theorem playingUnflagged_play (s : VideoPlayer) (i : String)
    (h : PlayingUnflagged s) : PlayingUnflagged (play_video s i).1 := by
  cases hg : getVideo s.videos i with
  | none =>
    exact playingUnflagged_of_eq (by simp [play_video, hg]) (by simp [play_video, hg]) h
  | some v =>
    cases hfr : v.flag_reason with
    | some r =>
      exact playingUnflagged_of_eq (by simp [play_video, hg, hfr])
        (by simp [play_video, hg, hfr]) h
    | none =>
      intro j hj
      have hpl : (play_video s i).1.playing_video = some v.video_id := by
        simp [play_video, hg, hfr]
      have hvids : (play_video s i).1.videos = s.videos := by
        simp [play_video, hg, hfr]
      rw [hpl] at hj
      rw [hvids]
      cases hj
      exact ⟨v, by rw [getVideo_eq_id hg]; exact hg, hfr⟩

theorem playingUnflagged_stop (s : VideoPlayer) (h : PlayingUnflagged s) :
    PlayingUnflagged (stop_video s).1 := by
  cases hp : s.playing_video with
  | none => exact playingUnflagged_of_eq (by simp [stop_video, hp]) (by simp [stop_video, hp]) h
  | some p => exact playingUnflagged_of_none (by simp [stop_video, hp])

theorem playingUnflagged_playRandom (s : VideoPlayer) (k : Nat)
    (h : PlayingUnflagged s) : PlayingUnflagged (play_random_video s k).1 := by
  rw [play_random_video.eq_def]
  cases hfl : s.videos.filter (fun v => v.flag_reason == none) with
  | nil => exact h
  | cons v vs => exact playingUnflagged_play s _ h

theorem playingUnflagged_pause (s : VideoPlayer) (h : PlayingUnflagged s) :
    PlayingUnflagged (pause_video s).1 := by
  cases hp : s.playing_video with
  | none =>
    exact playingUnflagged_of_eq (by simp [pause_video, hp]) (by simp [pause_video, hp]) h
  | some p =>
    by_cases hpa : s.is_video_paused
    · exact playingUnflagged_of_eq (by simp [pause_video, hp, hpa])
        (by simp [pause_video, hp, hpa]) h
    · exact playingUnflagged_of_eq (by simp [pause_video, hp, hpa])
        (by simp [pause_video, hp, hpa]) h

theorem playingUnflagged_continue (s : VideoPlayer) (h : PlayingUnflagged s) :
    PlayingUnflagged (continue_video s).1 := by
  cases hp : s.playing_video with
  | none =>
    exact playingUnflagged_of_eq (by simp [continue_video, hp])
      (by simp [continue_video, hp]) h
  | some p =>
    by_cases hpa : s.is_video_paused
    · exact playingUnflagged_of_eq (by simp [continue_video, hp, hpa])
        (by simp [continue_video, hp, hpa]) h
    · exact playingUnflagged_of_eq (by simp [continue_video, hp, hpa])
        (by simp [continue_video, hp, hpa]) h

theorem playingUnflagged_create (s : VideoPlayer) (n : String) (h : PlayingUnflagged s) :
    PlayingUnflagged (create_playlist s n).1 := by
  cases halg : alGet s.playlists (upperStr n) with
  | none =>
    exact playingUnflagged_of_eq (by simp [create_playlist, halg])
      (by simp [create_playlist, halg]) h
  | some pl =>
    exact playingUnflagged_of_eq (by simp [create_playlist, halg])
      (by simp [create_playlist, halg]) h

theorem playingUnflagged_add (s : VideoPlayer) (n i : String) (h : PlayingUnflagged s) :
    PlayingUnflagged (add_to_playlist s n i).1 := by
  cases halg : alGet s.playlists (upperStr n) with
  | none =>
    exact playingUnflagged_of_eq (by simp [add_to_playlist, halg])
      (by simp [add_to_playlist, halg]) h
  | some pl =>
    cases hg : getVideo s.videos i with
    | none =>
      exact playingUnflagged_of_eq (by simp [add_to_playlist, halg, hg])
        (by simp [add_to_playlist, halg, hg]) h
    | some v =>
      cases hfr : v.flag_reason with
      | some r =>
        exact playingUnflagged_of_eq (by simp [add_to_playlist, halg, hg, hfr])
          (by simp [add_to_playlist, halg, hg, hfr]) h
      | none =>
        by_cases hm : v.video_id ∈ pl.videos
        · exact playingUnflagged_of_eq (by simp [add_to_playlist, halg, hg, hfr, hm])
            (by simp [add_to_playlist, halg, hg, hfr, hm]) h
        · exact playingUnflagged_of_eq (by simp [add_to_playlist, halg, hg, hfr, hm])
            (by simp [add_to_playlist, halg, hg, hfr, hm]) h

theorem playingUnflagged_remove (s : VideoPlayer) (n i : String) (h : PlayingUnflagged s) :
    PlayingUnflagged (remove_from_playlist s n i).1 := by
  cases halg : alGet s.playlists (upperStr n) with
  | none =>
    exact playingUnflagged_of_eq (by simp [remove_from_playlist, halg])
      (by simp [remove_from_playlist, halg]) h
  | some pl =>
    by_cases hg : (getVideo s.videos i).isNone
    · exact playingUnflagged_of_eq (by simp [remove_from_playlist, halg, hg])
        (by simp [remove_from_playlist, halg, hg]) h
    · by_cases hm : i ∈ pl.videos
      · exact playingUnflagged_of_eq (by simp [remove_from_playlist, halg, hg, hm])
          (by simp [remove_from_playlist, halg, hg, hm]) h
      · exact playingUnflagged_of_eq (by simp [remove_from_playlist, halg, hg, hm])
          (by simp [remove_from_playlist, halg, hg, hm]) h

theorem playingUnflagged_clear (s : VideoPlayer) (n : String) (h : PlayingUnflagged s) :
    PlayingUnflagged (clear_playlist s n).1 := by
  cases halg : alGet s.playlists (upperStr n) with
  | none =>
    exact playingUnflagged_of_eq (by simp [clear_playlist, halg])
      (by simp [clear_playlist, halg]) h
  | some pl =>
    exact playingUnflagged_of_eq (by simp [clear_playlist, halg])
      (by simp [clear_playlist, halg]) h

theorem playingUnflagged_delete (s : VideoPlayer) (n : String) (h : PlayingUnflagged s) :
    PlayingUnflagged (delete_playlist s n).1 := by
  cases halg : alGet s.playlists (upperStr n) with
  | none =>
    exact playingUnflagged_of_eq (by simp [delete_playlist, halg])
      (by simp [delete_playlist, halg]) h
  | some pl =>
    exact playingUnflagged_of_eq (by simp [delete_playlist, halg])
      (by simp [delete_playlist, halg]) h

theorem playingUnflagged_flag (s : VideoPlayer) (i r : String) (h : PlayingUnflagged s) :
    PlayingUnflagged (flag_video s i r).1 := by
  cases hg : getVideo s.videos i with
  | none =>
    exact playingUnflagged_of_eq (by simp [flag_video, hg]) (by simp [flag_video, hg]) h
  | some v =>
    cases hfr : v.flag_reason with
    | some r0 =>
      exact playingUnflagged_of_eq (by simp [flag_video, hg, hfr])
        (by simp [flag_video, hg, hfr]) h
    | none =>
      by_cases hp : s.playing_video = some v.video_id
      · apply playingUnflagged_of_none
        simp [flag_video, hg, hfr, hp, stop_video]
      · intro j hj
        have hpl : (flag_video s i r).1.playing_video = s.playing_video := by
          simp [flag_video, hg, hfr, hp]
        have hvids : (flag_video s i r).1.videos = setFlagReason s.videos i (some r) := by
          simp [flag_video, hg, hfr, hp]
        rw [hpl] at hj
        obtain ⟨w, hw, hwf⟩ := h j hj
        have hvi : v.video_id = i := getVideo_eq_id hg
        have hji : j ≠ i := by
          intro hcontra
          apply hp
          rw [hj, hcontra, hvi]
        refine ⟨w, ?_, hwf⟩
        rw [hvids, getVideo_setFlagReason_ne (some r) hji]
        exact hw

theorem playingUnflagged_allow (s : VideoPlayer) (i : String) (h : PlayingUnflagged s) :
    PlayingUnflagged (allow_video s i).1 := by
  cases hg : getVideo s.videos i with
  | none =>
    exact playingUnflagged_of_eq (by simp [allow_video, hg]) (by simp [allow_video, hg]) h
  | some v =>
    cases hfr : v.flag_reason with
    | none =>
      exact playingUnflagged_of_eq (by simp [allow_video, hg, hfr])
        (by simp [allow_video, hg, hfr]) h
    | some r0 =>
      intro j hj
      have hpl : (allow_video s i).1.playing_video = s.playing_video := by
        simp [allow_video, hg, hfr]
      have hvids : (allow_video s i).1.videos = setFlagReason s.videos i none := by
        simp [allow_video, hg, hfr]
      rw [hpl] at hj
      obtain ⟨w, hw, hwf⟩ := h j hj
      by_cases hji : j = i
      · subst hji
        refine ⟨{ v with flag_reason := none }, ?_, rfl⟩
        rw [hvids]
        exact getVideo_setFlagReason_self hg none
      · refine ⟨w, ?_, hwf⟩
        rw [hvids, getVideo_setFlagReason_ne none hji]
        exact hw

theorem playingUnflagged_step (s : VideoPlayer) (op : Op) (h : PlayingUnflagged s) :
    PlayingUnflagged (stepOp s op) := by
  cases op with
  | play i => exact playingUnflagged_play s i h
  | stop => exact playingUnflagged_stop s h
  | playRandom k => exact playingUnflagged_playRandom s k h
  | pause => exact playingUnflagged_pause s h
  | resume => exact playingUnflagged_continue s h
  | createPlaylist n => exact playingUnflagged_create s n h
  | addToPlaylist n i => exact playingUnflagged_add s n i h
  | removeFromPlaylist n i => exact playingUnflagged_remove s n i h
  | clearPlaylist n => exact playingUnflagged_clear s n h
  | deletePlaylist n => exact playingUnflagged_delete s n h
  | flag i r => exact playingUnflagged_flag s i r h
  | allow i => exact playingUnflagged_allow s i h

theorem playingUnflagged_runOps (s : VideoPlayer) (ops : List Op)
    (h : PlayingUnflagged s) : PlayingUnflagged (runOps s ops) := by
  induction ops generalizing s with
  | nil => exact h
  | cons op rest ih => exact ih (stepOp s op) (playingUnflagged_step s op h)

/-- C2: in every state reachable from an initial state by any command
sequence, the currently playing video (when there is one) exists in the
catalog and is not flagged: play and playRandom refuse flagged videos, and
flagging the playing video stops playback first. -/
theorem c2_playing_video_never_flagged (lib : List Video) (ops : List Op) (i : String)
    (h : (runOps (initState lib) ops).playing_video = some i) :
    ∃ v, getVideo (runOps (initState lib) ops).videos i = some v ∧
      v.flag_reason = none := by
  have h0 : PlayingUnflagged (initState lib) := by
    intro j hj
    simp [initState] at hj
  exact playingUnflagged_runOps (initState lib) ops h0 i h

theorem c2_witness :
    ∃ v, getVideo (runOps (initState [⟨"v", "T", [], none⟩]) [Op.play "v"]).videos "v" =
        some v ∧ v.flag_reason = none :=
  c2_playing_video_never_flagged [⟨"v", "T", [], none⟩] [Op.play "v"] "v" (by decide)
